import Mathlib

/-!
Verification of the data-query MCP server (src/data_query_server/server.py)
against its design specification.  The Python code is shallowly embedded:
Python/JSON values become the inductive `PyVal`, the DuckDB connection is
modelled as an abstract `Store` (an external collaborator returning columns
and row tuples, or an error message), raised exceptions become
`Except.error`, and every store-touching function additionally reports the
list of queries it sent to the store (its store-call trace).
-/

set_option maxHeartbeats 1000000

set_option maxRecDepth 100000

/-- Python/JSON values as they flow through the server: `none` is Python
`None` / JSON `null`; dicts preserve insertion order. -/
inductive PyVal where
  | none : PyVal
  | bool : Bool → PyVal
  | int : Int → PyVal
  | str : String → PyVal
  | list : List PyVal → PyVal
  | dict : List (String × PyVal) → PyVal

/-- Lookup in an association list (Python dict access by key). -/
def assocFind {α : Type} : List (String × α) → String → Option α
  | [], _ => Option.none
  | (k, v) :: rest, key => if k = key then some v else assocFind rest key

/-- Python type name of a value, used in exception messages. -/
def pyTypeName : PyVal → String
  | .none => "NoneType"
  | .bool _ => "bool"
  | .int _ => "int"
  | .str _ => "str"
  | .list _ => "list"
  | .dict _ => "dict"

/-- Python truthiness. -/
def pyTruthy : PyVal → Bool
  | .none => false
  | .bool b => b
  | .int n => n != 0
  | .str s => s != ""
  | .list xs => !xs.isEmpty
  | .dict xs => !xs.isEmpty

def commaSep (xs : List String) : String := String.intercalate ", " xs

mutual
/-- Python structural equality `==` on values. -/
def PyVal.beq : PyVal → PyVal → Bool
  | .none, .none => true
  | .bool a, .bool b => a == b
  | .int a, .int b => a == b
  | .str a, .str b => a == b
  | .list xs, .list ys => PyVal.beqList xs ys
  | .dict xs, .dict ys => PyVal.beqPairs xs ys
  | _, _ => false

def PyVal.beqList : List PyVal → List PyVal → Bool
  | [], [] => true
  | x :: xs, y :: ys => PyVal.beq x y && PyVal.beqList xs ys
  | _, _ => false

def PyVal.beqPairs : List (String × PyVal) → List (String × PyVal) → Bool
  | [], [] => true
  | (k, v) :: xs, (l, w) :: ys => k == l && PyVal.beq v w && PyVal.beqPairs xs ys
  | _, _ => false
end

mutual
/-- Python `repr` of a value (single quotes written via escapes). -/
def pyRepr : PyVal → String
  | .none => "None"
  | .bool true => "True"
  | .bool false => "False"
  | .int n => toString n
  | .str s => "\x27" ++ s ++ "\x27"
  | .list xs => "[" ++ commaSep (pyReprList xs) ++ "]"
  | .dict xs => "\x7b" ++ commaSep (pyReprPairs xs) ++ "\x7d"

def pyReprList : List PyVal → List String
  | [] => []
  | x :: xs => pyRepr x :: pyReprList xs

def pyReprPairs : List (String × PyVal) → List String
  | [] => []
  | (k, v) :: xs => ("\x27" ++ k ++ "\x27: " ++ pyRepr v) :: pyReprPairs xs
end

/-- Python `str` of a value: identity on strings, `repr` elsewhere. -/
def pyStr : PyVal → String
  | .str s => s
  | v => pyRepr v

/-- Python `key in value` (dict keys, string substring, list membership);
iterating a scalar raises `TypeError`. -/
def pyContains (key : String) : PyVal → Except String Bool
  | .dict d => .ok (assocFind d key).isSome
  | .str s => .ok (if key = "" then true else (s.splitOn key).length != 1)
  | .list xs => .ok (xs.any (PyVal.beq (.str key)))
  | v => .error ("argument of type \x27" ++ pyTypeName v ++ "\x27 is not iterable")

/-- Python `value[key]` with a string key. -/
def pySubscript (v : PyVal) (key : String) : Except String PyVal :=
  match v with
  | .dict d =>
    match assocFind d key with
    | some x => .ok x
    | Option.none => .error ("\x27" ++ key ++ "\x27")
  | _ => .error "string indices must be integers"

/-- Python `value.get(key)` — `None` default; raises `AttributeError` on
non-dicts (the HTTP endpoint relies on this, server.py lines 399, 431). -/
def pyGetAttr (v : PyVal) (key : String) : Except String PyVal :=
  match v with
  | .dict d => .ok ((assocFind d key).getD .none)
  | _ =>
    .error ("\x27" ++ pyTypeName v ++ "\x27 object has no attribute \x27get\x27")

/-- Python `value.get(key, default)`. -/
def pyGetAttrD (v : PyVal) (key : String) (dflt : PyVal) : Except String PyVal :=
  match v with
  | .dict d => .ok ((assocFind d key).getD dflt)
  | _ =>
    .error ("\x27" ++ pyTypeName v ++ "\x27 object has no attribute \x27get\x27")

def pyIsDict : PyVal → Bool
  | .dict _ => true
  | _ => false

/-- The Dataset Store (external collaborator; server.py lines 100-101 call
`conn.execute(query)`): given the query value, it returns the result column
names and the raw row tuples, or a store error message. -/
structure Store where
  runQuery : PyVal → Except String (List String × List (List PyVal))

/-- Metadata for one loaded dataset (`available_datasets` values,
server.py lines 71-89). -/
structure DatasetInfo where
  description : String
  columns : List String
  row_count : Nat
deriving DecidableEq

/-- The `DataQueryServer` state visible to the handlers. -/
structure ServerState where
  available_datasets : List (String × DatasetInfo)
deriving DecidableEq

/-- The dict returned by `DataQueryServer.execute_sql`
(server.py lines 96-111). -/
structure QueryResult where
  success : Bool
  data : List (List (String × PyVal))
  columns : List String
  row_count : Nat
  error : Option String

/-- Key update/insert, preserving insertion order (Python dict assignment). -/
def dictInsert (d : List (String × PyVal)) (k : String) (v : PyVal) :
    List (String × PyVal) :=
  if d.any (fun p => p.1 == k) then
    d.map (fun p => if p.1 == k then (k, v) else p)
  else d ++ [(k, v)]

/-- Python `dict(zip(columns, row, strict=False))` (server.py line 106). -/
def pyDictZip (cols : List String) (vals : List PyVal) :
    List (String × PyVal) :=
  (cols.zip vals).foldl (fun d p => dictInsert d p.1 p.2) []

/-- `DataQueryServer.execute_sql` (server.py lines 96-111). -/
def execute_sql (store : Store) (query : PyVal) : QueryResult :=
  match store.runQuery query with
  | .ok (columns, result) =>
    let rows := result.map (pyDictZip columns)
    { success := true, data := rows, columns := columns,
      row_count := rows.length, error := Option.none }
  | .error e =>
    { success := false, data := [], columns := [], row_count := 0,
      error := some e }

/-- The validation guard `not arguments or key not in arguments` used by
`handle_call_tool` (server.py lines 245, 270): `.ok true` means the
argument counts as missing. -/
def argMissing (arguments : PyVal) (key : String) : Except String Bool :=
  if !(pyTruthy arguments) then .ok true
  else
    match pyContains key arguments with
    | .ok b => .ok !b
    | .error e => .error e

/-- A `types.TextContent` payload (type tag plus text). -/
structure TextContent where
  type : String
  text : String
deriving DecidableEq

/-- The `if table_name:` branch of `DataQueryServer.get_table_info`
(server.py lines 116-125); `.error` is the dict produced by the `except`
clause (line 137).  Second component: queries sent to the store. -/
def get_table_info_single (store : Store) (s : ServerState)
    (table_name : PyVal) :
    Except String (PyVal × List (PyVal × PyVal) × Option DatasetInfo)
      × List PyVal :=
  let schema_query := PyVal.str ("DESCRIBE " ++ pyStr table_name)
  match store.runQuery schema_query with
  | .error e => (.error e, [schema_query])
  | .ok (_, schema_result) =>
    if schema_result.all (fun r => decide (2 ≤ r.length)) then
      (.ok (table_name,
            schema_result.map (fun r => (r.getD 0 .none, r.getD 1 .none)),
            match table_name with
            | .str nm => assocFind s.available_datasets nm
            | _ => Option.none),
       [schema_query])
    else (.error "tuple index out of range", [schema_query])

/-- The `else` branch of `DataQueryServer.get_table_info` (server.py
lines 126-134), run when no table name is given. -/
def get_table_info_all (store : Store) (s : ServerState) :
    Except String (List PyVal × List (String × DatasetInfo)) × List PyVal :=
  match store.runQuery (.str "SHOW TABLES") with
  | .error e => (.error e, [.str "SHOW TABLES"])
  | .ok (_, tables_result) =>
    if tables_result.all (fun r => decide (1 ≤ r.length)) then
      (.ok (tables_result.map (fun r => r.getD 0 .none),
            s.available_datasets),
       [.str "SHOW TABLES"])
    else (.error "tuple index out of range", [.str "SHOW TABLES"])

/-- One line of the row-display loop (server.py line 260). -/
def rowLine (i : Nat) (row : List (String × PyVal)) : String :=
  "Row " ++ toString (i + 1) ++ ": " ++ pyStr (.dict row) ++ "\n"

/-- The `for i, row in enumerate(...)` accumulation (server.py 259-260). -/
def rowLines (i : Nat) : List (List (String × PyVal)) → String
  | [] => ""
  | row :: rest => rowLine i row ++ rowLines (i + 1) rest

/-- The success-path text of the `sql_query` tool (server.py 251-263). -/
def sqlSuccessText (result : QueryResult) : String :=
  "Query executed successfully!\n\n"
  ++ "Columns: " ++ commaSep result.columns ++ "\n"
  ++ "Rows returned: " ++ toString result.row_count ++ "\n\n"
  ++ (if !result.data.isEmpty then
        "Results:\n" ++ rowLines 0 (result.data.take 10)
        ++ (if 10 < result.data.length then
              "... and " ++ toString (result.data.length - 10) ++ " more rows\n"
            else "")
      else "")

/-- The text of the `describe_table` tool on a successful schema fetch
(server.py 279-288). -/
def describeText (table : PyVal) (schema : List (PyVal × PyVal))
    (metadata : Option DatasetInfo) : String :=
  "Table: " ++ pyStr table ++ "\n\n"
  ++ "Schema:\n"
  ++ String.join (schema.map (fun col =>
       "  - " ++ pyStr col.1 ++ ": " ++ pyStr col.2 ++ "\n"))
  ++ match metadata with
     | some m =>
       "\nMetadata:\n"
       ++ "  - Description: " ++ m.description ++ "\n"
       ++ "  - Row count: " ++ toString m.row_count ++ "\n"
     | Option.none => ""

/-- The text of the `list_tables` tool (server.py 298-304). -/
def listTablesText (tables : List PyVal)
    (datasets_info : List (String × DatasetInfo)) : String :=
  "Available tables:\n\n"
  ++ String.join (tables.map (fun table =>
       let info := match table with
         | .str nm => assocFind datasets_info nm
         | _ => Option.none
       "• " ++ pyStr table ++ "\n"
       ++ "  Description: "
         ++ (match info with
             | some i => i.description
             | Option.none => "N/A") ++ "\n"
       ++ "  Columns: "
         ++ commaSep (match info with
                      | some i => i.columns
                      | Option.none => []) ++ "\n"
       ++ "  Rows: "
         ++ (match info with
             | some i => toString i.row_count
             | Option.none => "N/A")
         ++ "\n\n"))

/-- `handle_call_tool` (server.py lines 238-309).  First component: the
returned content list, or the message of the raised exception; second
component: the queries sent to the Dataset Store during the call. -/
def handle_call_tool (store : Store) (s : ServerState) (name : PyVal)
    (arguments : PyVal) : Except String (List TextContent) × List PyVal :=
  match name with
  | .str "sql_query" =>
    (match argMissing arguments "query" with
     | .error e => (.error e, [])
     | .ok true => (.error "Missing SQL query", [])
     | .ok false =>
       match pySubscript arguments "query" with
       | .error e => (.error e, [])
       | .ok query =>
         let result := execute_sql store query
         let response_text :=
           if result.success then sqlSuccessText result
           else "Query failed: " ++ result.error.getD ""
         (.ok [⟨"text", response_text⟩], [query]))
  | .str "describe_table" =>
    (match argMissing arguments "table_name" with
     | .error e => (.error e, [])
     | .ok true => (.error "Missing table name", [])
     | .ok false =>
       match pySubscript arguments "table_name" with
       | .error e => (.error e, [])
       | .ok table_name =>
         match get_table_info_single store s table_name with
         | (.error e, tr) =>
           (.ok [⟨"text", "Error describing table: " ++ e⟩], tr)
         | (.ok (table, schema, metadata), tr) =>
           (.ok [⟨"text", describeText table schema metadata⟩], tr))
  | .str "list_tables" =>
    (match get_table_info_all store s with
     | (.error e, tr) => (.ok [⟨"text", "Error listing tables: " ++ e⟩], tr)
     | (.ok (tables, datasets_info), tr) =>
       (.ok [⟨"text", listTablesText tables datasets_info⟩], tr))
  | _ => (.error ("Unknown tool: " ++ pyStr name), [])

/-- A `types.Tool` descriptor. -/
structure Tool where
  name : String
  description : String
  inputSchema : PyVal

/-- `handle_list_tools` (server.py lines 201-235).  The Python function
reads no server state; the state parameter records that it could. -/
def handle_list_tools (_s : ServerState) : List Tool :=
  [{ name := "sql_query",
     description := "Execute a SQL query against the available datasets",
     inputSchema := .dict [("type", .str "object"),
       ("properties", .dict [("query", .dict [("type", .str "string"),
         ("description", .str "The SQL query to execute")])]),
       ("required", .list [.str "query"])] },
   { name := "describe_table",
     description :=
       "Get schema and metadata information for a specific table",
     inputSchema := .dict [("type", .str "object"),
       ("properties", .dict [("table_name", .dict [("type", .str "string"),
         ("description", .str "Name of the table to describe")])]),
       ("required", .list [.str "table_name"])] },
   { name := "list_tables",
     description := "List all available tables and their basic information",
     inputSchema := .dict [("type", .str "object"),
       ("properties", .dict [])] }]

/-- A `types.Resource` descriptor. -/
structure Resource where
  uri : String
  name : String
  description : String
  mimeType : String
deriving DecidableEq

/-- `handle_list_resources` (server.py lines 151-176). -/
def handle_list_resources (s : ServerState) : List Resource :=
  s.available_datasets.map (fun p =>
    { uri := "dataset://" ++ p.1, name := "Dataset: " ++ p.1,
      description := p.2.description, mimeType := "application/json" })
  ++ [{ uri := "schema://all", name := "Database Schema",
        description := "Complete schema information for all datasets",
        mimeType := "application/json" }]

/-- The scheme/host view of a parsed `AnyUrl`. -/
structure Url where
  scheme : String
  host : Option String
deriving DecidableEq

/-- Modelled external collaborator: pydantic `AnyUrl` construction —
accepts `scheme://host...`, raises a validation error otherwise. -/
def parseAnyUrl : PyVal → Except String Url
  | .str s =>
    (match s.splitOn "://" with
     | [sch, rest] =>
       if sch = "" then .error ("invalid URL: " ++ s)
       else
         let hostPart := (rest.splitOn "/").headD ""
         .ok { scheme := sch,
               host := if hostPart = "" then Option.none else some hostPart }
     | _ => .error ("invalid URL: " ++ s))
  | w => .error ("URL input should be a string, not " ++ pyTypeName w)

/-- The dict literally built by `execute_sql`, in its insertion order, for
`str(result)` serialization (server.py lines 108, 111, 188). -/
def queryResultToPyVal (r : QueryResult) : PyVal :=
  if r.success then
    .dict [("success", .bool true), ("data", .list (r.data.map PyVal.dict)),
           ("columns", .list (r.columns.map PyVal.str)),
           ("row_count", .int r.row_count)]
  else
    .dict [("success", .bool false), ("error", .str (r.error.getD "")),
           ("data", .list (r.data.map PyVal.dict)),
           ("columns", .list (r.columns.map PyVal.str)),
           ("row_count", .int r.row_count)]

/-- One `available_datasets` entry as the dict built at load time
(server.py lines 72-88). -/
def datasetInfoToPyVal (i : DatasetInfo) : PyVal :=
  .dict [("description", .str i.description),
         ("columns", .list (i.columns.map PyVal.str)),
         ("row_count", .int i.row_count)]

/-- `handle_read_resource` (server.py lines 179-198), with its store-call
trace. -/
def handle_read_resource (store : Store) (s : ServerState) (uri : Url) :
    Except String String × List PyVal :=
  if uri.scheme = "dataset" then
    match uri.host with
    | some dataset_name =>
      if (assocFind s.available_datasets dataset_name).isSome then
        let query := PyVal.str ("SELECT * FROM " ++ dataset_name ++ " LIMIT 10")
        (.ok (pyStr (queryResultToPyVal (execute_sql store query))), [query])
      else (.error ("Dataset not found: " ++ dataset_name), [])
    | Option.none => (.error "Dataset not found: None", [])
  else if uri.scheme = "schema" then
    match get_table_info_all store s with
    | (.error e, tr) => (.ok (pyStr (.dict [("error", .str e)])), tr)
    | (.ok (tables, di), tr) =>
      (.ok (pyStr (.dict [("tables", .list tables),
        ("datasets_info",
         .dict (di.map (fun p => (p.1, datasetInfoToPyVal p.2))))])), tr)
  else (.error ("Unsupported URI scheme: " ++ uri.scheme), [])

/-- A Starlette `JSONResponse`: HTTP status plus JSON body. -/
structure HttpResp where
  status : Nat
  body : PyVal

def toolModelDump (t : Tool) : PyVal :=
  .dict [("name", .str t.name), ("description", .str t.description),
         ("inputSchema", t.inputSchema)]

def contentModelDump (c : TextContent) : PyVal :=
  .dict [("type", .str c.type), ("text", .str c.text)]

def resourceToPyVal (r : Resource) : PyVal :=
  .dict [("uri", .str r.uri), ("name", .str r.name),
         ("description", .str r.description), ("mimeType", .str r.mimeType)]

/-- A JSON-RPC error envelope (server.py lines 444-451, 487-504). -/
def errorEnvelope (request_id : PyVal) (code : Int) (msg : String) : PyVal :=
  .dict [("jsonrpc", .str "2.0"), ("id", request_id),
         ("error", .dict [("code", .int code), ("message", .str msg)])]

/-- A JSON-RPC result envelope (server.py lines 405-418 etc.). -/
def resultEnvelope (request_id : PyVal) (result : PyVal) : PyVal :=
  .dict [("jsonrpc", .str "2.0"), ("id", request_id), ("result", result)]

/-- The body of the `resources/read` inner `try` (server.py lines
473-474): construct the `AnyUrl`, then read the resource. -/
def readResourceRaw (store : Store) (s : ServerState) (uri : PyVal) :
    Except String String :=
  match parseAnyUrl uri with
  | .error e => .error e
  | .ok u => (handle_read_resource store s u).1

/-- The `if method == ... / elif ...` chain of `MessageEndpoint.post`
(server.py lines 404-504), as a function of the three extracted fields. -/
def dispatchMethod (store : Store) (s : ServerState)
    (method params request_id : PyVal) : Except String PyVal :=
  match method with
  | .str "initialize" =>
    .ok (resultEnvelope request_id (.dict [
      ("capabilities", .dict [
        ("tools", .dict [("listChanged", .bool false)]),
        ("resources", .dict [("subscribe", .bool false),
                             ("listChanged", .bool false)])]),
      ("serverInfo", .dict [("name", .str "data-query-server"),
                            ("version", .str "0.1.0")])]))
  | .str "tools/list" =>
    .ok (resultEnvelope request_id (.dict [("tools",
      .list ((handle_list_tools s).map toolModelDump))]))
  | .str "tools/call" =>
    (match pyGetAttr params "name" with
     | .error e => .error e
     | .ok tool_name =>
       match pyGetAttrD params "arguments" (.dict []) with
       | .error e => .error e
       | .ok arguments =>
         match (handle_call_tool store s tool_name arguments).1 with
         | .ok result =>
           .ok (resultEnvelope request_id (.dict [("content",
             .list (result.map contentModelDump))]))
         | .error e => .ok (errorEnvelope request_id (-32603) e))
  | .str "resources/list" =>
    .ok (resultEnvelope request_id (.dict [("resources",
      .list ((handle_list_resources s).map resourceToPyVal))]))
  | .str "resources/read" =>
    (match pyGetAttr params "uri" with
     | .error e => .error e
     | .ok uri =>
       match readResourceRaw store s uri with
       | .ok content =>
         .ok (resultEnvelope request_id (.dict [("contents", .list [
           .dict [("uri", uri), ("mimeType", .str "application/json"),
                  ("text", .str content)]])]))
       | .error e => .ok (errorEnvelope request_id (-32603) e))
  | _ =>
    .ok (errorEnvelope request_id (-32601)
      ("Method not found: " ++ pyStr method))

/-- The body of `MessageEndpoint.post` inside its outer `try` (server.py
lines 397-506): `.error` is a Python exception escaping to the outer
handler; the input is the outcome of `request.json()`. -/
def postInner (store : Store) (s : ServerState) (body : Except String PyVal) :
    Except String PyVal :=
  match body with
  | .error e => .error e
  | .ok data =>
    match pyGetAttr data "method" with
    | .error e => .error e
    | .ok method =>
      match pyGetAttrD data "params" (.dict []) with
      | .error e => .error e
      | .ok params =>
        match pyGetAttr data "id" with
        | .error e => .error e
        | .ok request_id => dispatchMethod store s method params request_id

/-- `MessageEndpoint.post` (server.py lines 395-519): the inner body, with
the outer `except` turning any escaped exception into an HTTP 400
parse-error envelope with a `null` id. -/
def post (store : Store) (s : ServerState) (body : Except String PyVal) :
    HttpResp :=
  match postInner store s body with
  | .ok response => { status := 200, body := response }
  | .error e =>
    { status := 400,
      body := errorEnvelope PyVal.none (-32700) ("Parse error: " ++ e) }

/-- Correlation id carried by a response body. -/
def respId (r : HttpResp) : PyVal :=
  match r.body with
  | .dict d => (assocFind d "id").getD .none
  | _ => .none

/-- JSON-RPC error code carried by a response body, when any. -/
def respErrCode (r : HttpResp) : Option Int :=
  match r.body with
  | .dict d =>
    match assocFind d "error" with
    | some (.dict e) =>
      (match assocFind e "code" with
       | some (.int c) => some c
       | _ => Option.none)
    | _ => Option.none
  | _ => Option.none

/-- The dataset metadata loaded by `load_sample_datasets`
(server.py lines 71-89). -/
def sampleState : ServerState where
  available_datasets :=
    [("sales",
      { description := "Sales transaction data with order details",
        columns := ["order_id", "customer_id", "product", "quantity",
                    "price", "order_date"],
        row_count := 100 }),
     ("customers",
      { description := "Customer information and registration data",
        columns := ["customer_id", "name", "email", "city",
                    "registration_date"],
        row_count := 50 })]

/-- A small deterministic Dataset Store used to exercise the handlers on
concrete inputs. -/
def sampleStore : Store where
  runQuery q :=
    match q with
    | .str "SELECT 1" => .ok (["1"], [[.int 1]])
    | .str "SELECT * FROM sales LIMIT 10" =>
      .ok (["order_id", "product"],
           [[.int 1, .str "Product A"], [.int 2, .str "Product B"]])
    | .str "SELECT order_id FROM sales" =>
      .ok (["order_id"], (List.range 15).map (fun i => [.int (i + 1)]))
    | _ => .error "Catalog Error: Table does not exist"

/-- C1: for every tool name outside \x7bsql_query, describe_table,
list_tables\x7d, `handle_call_tool` raises the unknown-tool error and the
store-call trace is empty (no call into the Dataset Store occurs). -/
theorem c1_unknown_tool (store : Store) (s : ServerState)
    (name arguments : PyVal)
    (h1 : name ≠ .str "sql_query") (h2 : name ≠ .str "describe_table")
    (h3 : name ≠ .str "list_tables") :
    handle_call_tool store s name arguments
      = (.error ("Unknown tool: " ++ pyStr name), []) := by
  unfold handle_call_tool
  split
  · exact absurd rfl h1
  · exact absurd rfl h2
  · exact absurd rfl h3
  · rfl

/-- Witness for C1 at the concrete unknown name "drop_table". -/
theorem c1_unknown_tool_witness :
    handle_call_tool sampleStore sampleState (.str "drop_table") (.dict [])
      = (.error ("Unknown tool: " ++ pyStr (.str "drop_table")), []) :=
  c1_unknown_tool sampleStore sampleState _ _
    (by intro h; injection h with h'; exact absurd h' (by decide))
    (by intro h; injection h with h'; exact absurd h' (by decide))
    (by intro h; injection h with h'; exact absurd h' (by decide))

/-- C2 counterexample: with arguments mapping "query" to the EMPTY string
— so the arguments lack a "query" entry that is a non-empty string — the
dispatcher does NOT yield the missing-argument error: it passes the empty
query to the Dataset Store (the trace records one store call) and returns
the store failure as a text payload. -/
theorem c2_counterexample :
    handle_call_tool sampleStore sampleState (.str "sql_query")
        (.dict [("query", .str "")])
      = (.ok [⟨"text", "Query failed: Catalog Error: Table does not exist"⟩],
         [.str ""]) := rfl

/-- C2 (amended): for every `sql_query` call whose arguments mapping is
absent (None) or has no "query" key at all — presence of the key is what
the code checks, not the value being a non-empty string — the dispatcher
yields the missing-argument error with an empty store-call trace. -/
theorem c2_missing_query (store : Store) (s : ServerState) (arguments : PyVal)
    (h : arguments = PyVal.none ∨
         ∃ d, arguments = PyVal.dict d ∧ assocFind d "query" = Option.none) :
    handle_call_tool store s (.str "sql_query") arguments
      = (.error "Missing SQL query", []) := by
  rcases h with rfl | ⟨d, rfl, hd⟩
  · rfl
  · cases d with
    | nil => rfl
    | cons p tl =>
      simp [handle_call_tool, argMissing, pyTruthy, pyContains, hd]

/-- Witness for C2 (amended) at absent arguments. -/
theorem c2_missing_query_witness :
    handle_call_tool sampleStore sampleState (.str "sql_query") PyVal.none
      = (.error "Missing SQL query", []) :=
  c2_missing_query sampleStore sampleState PyVal.none (Or.inl rfl)

/-- C3: whenever the store rejects the SQL, `execute_sql` yields
success=false with empty rows and columns, and the dispatcher returns a
successful text payload "Query failed: message" (which contains the word
"failed") instead of raising. -/
theorem c3_query_failure (store : Store) (s : ServerState) (q : PyVal)
    (e : String) (h : store.runQuery q = .error e) :
    execute_sql store q
      = { success := false, data := [], columns := [], row_count := 0,
          error := some e } ∧
    handle_call_tool store s (.str "sql_query") (.dict [("query", q)])
      = (.ok [⟨"text", "Query failed: " ++ e⟩], [q]) ∧
    "failed".data <:+: ("Query failed: " ++ e).data := by
  refine ⟨?_, ?_, ?_⟩
  · unfold execute_sql
    rw [h]
  · simp [handle_call_tool, argMissing, pyTruthy, pyContains, assocFind,
      pySubscript, execute_sql, h]
  · refine ⟨"Query ".data, ": ".data ++ e.data, ?_⟩
    have h1 : ("Query ".data ++ "failed".data) ++ ": ".data
        = "Query failed: ".data := by decide
    rw [String.data_append, ← h1]
    simp [List.append_assoc]

/-- Witness for C3 at a concrete rejected query. -/
theorem c3_query_failure_witness :
    execute_sql sampleStore (.str "SELECT nope")
      = { success := false, data := [], columns := [], row_count := 0,
          error := some "Catalog Error: Table does not exist" } ∧
    handle_call_tool sampleStore sampleState (.str "sql_query")
        (.dict [("query", .str "SELECT nope")])
      = (.ok [⟨"text",
          "Query failed: " ++ "Catalog Error: Table does not exist"⟩],
         [.str "SELECT nope"]) ∧
    "failed".data
      <:+: ("Query failed: " ++ "Catalog Error: Table does not exist").data :=
  c3_query_failure sampleStore sampleState (.str "SELECT nope")
    "Catalog Error: Table does not exist" rfl

/-- C8: the tool-listing operation is a pure read of static data — for any
two server states (in particular, the same state before and after other
calls) it returns identical descriptor lists, namely the same three tools
sql_query, describe_table, list_tables with their schemas. -/
theorem c8_list_tools_idempotent :
    ∀ s₁ s₂ : ServerState,
      handle_list_tools s₁ = handle_list_tools s₂ ∧
      (handle_list_tools s₁).map Tool.name
        = ["sql_query", "describe_table", "list_tables"] ∧
      (handle_list_tools s₁).length = 3 :=
  fun _ _ => ⟨rfl, rfl, rfl⟩

theorem dictInsert_of_not_mem (d : List (String × PyVal)) (k : String)
    (v : PyVal) (h : k ∉ d.map Prod.fst) :
    dictInsert d k v = d ++ [(k, v)] := by
  unfold dictInsert
  rw [if_neg]
  simp only [List.any_eq_true, beq_iff_eq, not_exists]
  rintro p ⟨hp, rfl⟩
  exact h (List.mem_map_of_mem Prod.fst hp)

theorem foldl_dictInsert_keys (ps : List (String × PyVal)) :
    ∀ acc : List (String × PyVal),
      (acc.map Prod.fst ++ ps.map Prod.fst).Nodup →
      ((ps.foldl (fun d p => dictInsert d p.1 p.2) acc).map Prod.fst
        = acc.map Prod.fst ++ ps.map Prod.fst) := by
  induction ps with
  | nil => intro acc _; simp
  | cons p ps ih =>
    intro acc h
    obtain ⟨k, v⟩ := p
    have hk : k ∉ acc.map Prod.fst := by
      rw [List.nodup_append] at h
      intro hmem
      exact h.2.2 hmem (by simp)
    rw [List.foldl_cons, dictInsert_of_not_mem acc k v hk]
    have h' : ((acc ++ [(k, v)]).map Prod.fst ++ ps.map Prod.fst).Nodup := by
      simpa [List.append_assoc] using h
    rw [ih (acc ++ [(k, v)]) h']
    simp [List.append_assoc]

theorem pyDictZip_keys (cols : List String) (vals : List PyVal)
    (hnd : cols.Nodup) (hlen : cols.length ≤ vals.length) :
    (pyDictZip cols vals).map Prod.fst = cols := by
  unfold pyDictZip
  rw [foldl_dictInsert_keys (cols.zip vals) []]
  · simp [List.map_fst_zip cols vals hlen]
  · simpa [List.map_fst_zip cols vals hlen] using hnd

/-- A store answering a valid query against the loaded tables with a
DUPLICATE result column name, as DuckDB does for
`SELECT customer_id, customer_id FROM customers`. -/
def dupColStore : Store where
  runQuery q :=
    match q with
    | .str "SELECT customer_id, customer_id FROM customers" =>
      .ok (["customer_id", "customer_id"],
           [[.str "CUST_001", .str "CUST_001"]])
    | _ => .error "Catalog Error: Table does not exist"

/-- C7 counterexample: a syntactically valid query against a known table
whose result declares the column name customer_id twice.  `execute_sql`
succeeds, but `dict(zip(columns, row, strict=False))` collapses the
duplicate key, so the returned row's keys are [customer_id] — NOT exactly
the declared columns [customer_id, customer_id]. -/
theorem c7_counterexample :
    dupColStore.runQuery
        (.str "SELECT customer_id, customer_id FROM customers")
      = .ok (["customer_id", "customer_id"],
             [[.str "CUST_001", .str "CUST_001"]]) ∧
    (execute_sql dupColStore
        (.str "SELECT customer_id, customer_id FROM customers")).success
      = true ∧
    (execute_sql dupColStore
        (.str "SELECT customer_id, customer_id FROM customers")).columns
      = ["customer_id", "customer_id"] ∧
    (execute_sql dupColStore
        (.str "SELECT customer_id, customer_id FROM customers")).data
      = [[("customer_id", PyVal.str "CUST_001")]] ∧
    [("customer_id", PyVal.str "CUST_001")].map Prod.fst
      ≠ ["customer_id", "customer_id"] :=
  ⟨rfl, rfl, rfl, rfl, by decide⟩

/-- C7 (amended): for every query the store answers whose declared result
column names are distinct (rows being as wide as the column list, as the
cursor guarantees), `execute_sql` reports success, its row_count equals
the number of rows, and every returned row is a mapping whose keys are
exactly the declared columns.  With duplicate column names the keys
collapse, as the counterexample shows. -/
theorem c7_valid_query (store : Store) (q : PyVal) (cols : List String)
    (rows : List (List PyVal)) (h : store.runQuery q = .ok (cols, rows))
    (hnd : cols.Nodup) (hlen : ∀ r ∈ rows, r.length = cols.length) :
    (execute_sql store q).success = true ∧
    (execute_sql store q).row_count = (execute_sql store q).data.length ∧
    (execute_sql store q).columns = cols ∧
    ∀ row ∈ (execute_sql store q).data, row.map Prod.fst = cols := by
  unfold execute_sql
  rw [h]
  refine ⟨rfl, rfl, rfl, ?_⟩
  intro row hrow
  simp only [List.mem_map] at hrow
  obtain ⟨r, hr, rfl⟩ := hrow
  exact pyDictZip_keys cols r hnd (le_of_eq (hlen r hr).symm)

/-- Witness for C7 at the concrete query "SELECT 1". -/
theorem c7_valid_query_witness :
    (execute_sql sampleStore (.str "SELECT 1")).success = true ∧
    (execute_sql sampleStore (.str "SELECT 1")).row_count
      = (execute_sql sampleStore (.str "SELECT 1")).data.length ∧
    (execute_sql sampleStore (.str "SELECT 1")).columns = ["1"] ∧
    ∀ row ∈ (execute_sql sampleStore (.str "SELECT 1")).data,
      row.map Prod.fst = ["1"] :=
  c7_valid_query sampleStore (.str "SELECT 1") ["1"] [[.int 1]] rfl
    (by decide) (by decide)

/-- C6: resource reads — a dataset URI naming an unknown dataset raises
the not-found error (no store call); a known dataset returns the
serialized full query-result structure of "SELECT * FROM name LIMIT 10";
a scheme other than dataset/schema raises the unsupported-scheme error. -/
theorem c6_read_resource (store : Store) (s : ServerState) (u : Url)
    (n : String) :
    (u.scheme = "dataset" → u.host = some n →
      assocFind s.available_datasets n = Option.none →
      handle_read_resource store s u
        = (.error ("Dataset not found: " ++ n), [])) ∧
    (u.scheme = "dataset" → u.host = some n →
      (assocFind s.available_datasets n).isSome →
      handle_read_resource store s u
        = (.ok (pyStr (queryResultToPyVal (execute_sql store
            (.str ("SELECT * FROM " ++ n ++ " LIMIT 10"))))),
           [.str ("SELECT * FROM " ++ n ++ " LIMIT 10")])) ∧
    (u.scheme ≠ "dataset" → u.scheme ≠ "schema" →
      handle_read_resource store s u
        = (.error ("Unsupported URI scheme: " ++ u.scheme), [])) := by
  refine ⟨?_, ?_, ?_⟩
  · intro hsch hhost hmiss
    simp [handle_read_resource, hsch, hhost, hmiss]
  · intro hsch hhost hsome
    simp [handle_read_resource, hsch, hhost, hsome]
  · intro h1 h2
    simp [handle_read_resource, h1, h2]

/-- Witness for C6: unknown dataset, known dataset, and foreign scheme at
concrete URIs. -/
theorem c6_read_resource_witness :
    handle_read_resource sampleStore sampleState
        { scheme := "dataset", host := some "nope" }
      = (.error ("Dataset not found: " ++ "nope"), []) ∧
    handle_read_resource sampleStore sampleState
        { scheme := "dataset", host := some "sales" }
      = (.ok (pyStr (queryResultToPyVal (execute_sql sampleStore
          (.str ("SELECT * FROM " ++ "sales" ++ " LIMIT 10"))))),
         [.str ("SELECT * FROM " ++ "sales" ++ " LIMIT 10")]) ∧
    handle_read_resource sampleStore sampleState
        { scheme := "ftp", host := some "x" }
      = (.error ("Unsupported URI scheme: " ++ "ftp"), []) :=
  ⟨(c6_read_resource sampleStore sampleState
      { scheme := "dataset", host := some "nope" } "nope").1 rfl rfl rfl,
   (c6_read_resource sampleStore sampleState
      { scheme := "dataset", host := some "sales" } "sales").2.1 rfl rfl rfl,
   (c6_read_resource sampleStore sampleState
      { scheme := "ftp", host := some "x" } "x").2.2 (by decide) (by decide)⟩

/-- Concatenation of a list of strings, in order. -/
def concatStrings : List String → String
  | [] => ""
  | x :: xs => x ++ concatStrings xs

theorem rowLines_eq (l : List (List (String × PyVal))) :
    ∀ k, rowLines k l
      = concatStrings ((List.range l.length).map
          (fun i => rowLine (k + i) (l.getD i []))) := by
  induction l with
  | nil => intro k; rfl
  | cons a l ih =>
    intro k
    show rowLine k a ++ rowLines (k + 1) l = _
    rw [ih (k + 1), List.length_cons, List.range_succ_eq_map, List.map_cons,
        List.map_map]
    show _ = rowLine (k + 0) ((a :: l).getD 0 []) ++ _
    congr 1
    apply congrArg
    apply List.map_congr_left
    intro i _
    show rowLine (k + 1 + i) (l.getD i [])
        = rowLine (k + (i + 1)) ((a :: l).getD (i + 1) [])
    rw [List.getD_cons_succ]
    congr 1
    omega

theorem rowLines_take_eq (D : List (List (String × PyVal))) :
    rowLines 0 (D.take 10)
      = concatStrings ((List.range (min D.length 10)).map
          (fun i => rowLine i (D.getD i []))) := by
  rw [rowLines_eq (D.take 10) 0, List.length_take, Nat.min_comm]
  congr 1
  apply List.map_congr_left
  intro i hi
  rw [List.mem_range] at hi
  have hi10 : i < 10 := lt_of_lt_of_le hi (Nat.min_le_right _ _)
  rw [Nat.zero_add, List.getD_eq_getElem?_getD, List.getElem?_take,
      if_pos hi10, ← List.getD_eq_getElem?_getD]

theorem sqlSuccessText_eq (cols : List String)
    (D : List (List (String × PyVal))) :
    sqlSuccessText { success := true, data := D, columns := cols,
                     row_count := D.length, error := Option.none }
      = "Query executed successfully!\n\n"
        ++ "Columns: " ++ commaSep cols ++ "\n"
        ++ "Rows returned: " ++ toString D.length ++ "\n\n"
        ++ (if D.length = 0 then "" else
             "Results:\n"
             ++ concatStrings ((List.range (min D.length 10)).map
                  (fun i => rowLine i (D.getD i [])))
             ++ (if 10 < D.length then
                   "... and " ++ toString (D.length - 10) ++ " more rows\n"
                 else "")) := by
  unfold sqlSuccessText
  by_cases hD : D = []
  · subst hD; rfl
  · have h1 : (!D.isEmpty) = true := by
      simp [List.isEmpty_iff, hD]
    have h2 : ¬(D.length = 0) := by
      simp [List.length_eq_zero, hD]
    rw [if_pos h1, if_neg h2, rowLines_take_eq]

/-- C5: a successful `sql_query` call returning n rows produces the text
payload that renders exactly the first min(n, 10) rows as numbered
"Row i: ..." lines with i starting at 1, followed by a trailing
"... and (n - 10) more rows" line exactly when n exceeds 10. -/
theorem c5_pagination (store : Store) (s : ServerState) (q : PyVal)
    (cols : List String) (rows : List (List PyVal))
    (h : store.runQuery q = .ok (cols, rows)) :
    (handle_call_tool store s (.str "sql_query")
        (.dict [("query", q)])).1
      = .ok [⟨"text",
          "Query executed successfully!\n\n"
          ++ "Columns: " ++ commaSep cols ++ "\n"
          ++ "Rows returned: " ++ toString rows.length ++ "\n\n"
          ++ (if rows.length = 0 then "" else
               "Results:\n"
               ++ concatStrings ((List.range (min rows.length 10)).map
                    (fun i => rowLine i
                      ((rows.map (pyDictZip cols)).getD i [])))
               ++ (if 10 < rows.length then
                     "... and " ++ toString (rows.length - 10)
                       ++ " more rows\n"
                   else ""))⟩] := by
  have hex : execute_sql store q
      = { success := true, data := rows.map (pyDictZip cols),
          columns := cols, row_count := (rows.map (pyDictZip cols)).length,
          error := Option.none } := by
    unfold execute_sql
    rw [h]
  have htext : sqlSuccessText
      { success := true, data := rows.map (pyDictZip cols), columns := cols,
        row_count := (rows.map (pyDictZip cols)).length,
        error := Option.none }
      = "Query executed successfully!\n\n"
        ++ "Columns: " ++ commaSep cols ++ "\n"
        ++ "Rows returned: " ++ toString rows.length ++ "\n\n"
        ++ (if rows.length = 0 then "" else
             "Results:\n"
             ++ concatStrings ((List.range (min rows.length 10)).map
                  (fun i => rowLine i
                    ((rows.map (pyDictZip cols)).getD i [])))
             ++ (if 10 < rows.length then
                   "... and " ++ toString (rows.length - 10)
                     ++ " more rows\n"
                 else "")) := by
    rw [sqlSuccessText_eq cols (rows.map (pyDictZip cols))]
    simp only [List.length_map]
  calc (handle_call_tool store s (.str "sql_query")
          (.dict [("query", q)])).1
      = .ok [⟨"text",
          if (execute_sql store q).success = true
          then sqlSuccessText (execute_sql store q)
          else "Query failed: " ++ (execute_sql store q).error.getD ""⟩] :=
        rfl
    _ = _ := by
        rw [hex, htext]
        rfl

/-- Witness for C5: a concrete query returning 15 rows lists exactly rows
1-10 individually plus the trailing "... and 5 more rows" line. -/
theorem c5_pagination_witness :
    (handle_call_tool sampleStore sampleState (.str "sql_query")
        (.dict [("query", .str "SELECT order_id FROM sales")])).1
      = .ok [⟨"text",
          "Query executed successfully!\n\nColumns: order_id\nRows returned: 15\n\nResults:\nRow 1: \x7b\x27order_id\x27: 1\x7d\nRow 2: \x7b\x27order_id\x27: 2\x7d\nRow 3: \x7b\x27order_id\x27: 3\x7d\nRow 4: \x7b\x27order_id\x27: 4\x7d\nRow 5: \x7b\x27order_id\x27: 5\x7d\nRow 6: \x7b\x27order_id\x27: 6\x7d\nRow 7: \x7b\x27order_id\x27: 7\x7d\nRow 8: \x7b\x27order_id\x27: 8\x7d\nRow 9: \x7b\x27order_id\x27: 9\x7d\nRow 10: \x7b\x27order_id\x27: 10\x7d\n... and 5 more rows\n"⟩] :=
  (c5_pagination sampleStore sampleState (.str "SELECT order_id FROM sales")
    ["order_id"] ((List.range 15).map (fun i => [.int (i + 1)])) rfl).trans
    (by rfl)

/-- C4 counterexample: a well-formed envelope with id 5 and method
tools/call whose params field is a string — the id is extracted
successfully (shown by the second conjunct), yet the params.get call that
follows raises outside any per-method wrapping, so the endpoint answers
with a -32700 envelope whose id is null, not 5. -/
theorem c4_counterexample :
    post sampleStore sampleState (.ok (.dict
        [("jsonrpc", .str "2.0"), ("id", .int 5),
         ("method", .str "tools/call"), ("params", .str "oops")]))
      = { status := 400,
          body := errorEnvelope PyVal.none (-32700)
            ("Parse error: "
              ++ "\x27str\x27 object has no attribute \x27get\x27") } ∧
    pyGetAttr (.dict [("jsonrpc", .str "2.0"), ("id", .int 5),
        ("method", .str "tools/call"), ("params", .str "oops")]) "id"
      = .ok (.int 5) ∧
    respId (post sampleStore sampleState (.ok (.dict
        [("jsonrpc", .str "2.0"), ("id", .int 5),
         ("method", .str "tools/call"), ("params", .str "oops")])))
      = PyVal.none :=
  ⟨rfl, rfl, rfl⟩

theorem dispatch_id (store : Store) (s : ServerState) (method : PyVal)
    (p : List (String × PyVal)) (rid : PyVal) :
    ∃ bd, dispatchMethod store s method (.dict p) rid = .ok (.dict bd) ∧
      (assocFind bd "id").getD PyVal.none = rid := by
  unfold dispatchMethod
  split
  · exact ⟨_, rfl, rfl⟩
  · exact ⟨_, rfl, rfl⟩
  · simp only [pyGetAttr, pyGetAttrD]
    generalize (handle_call_tool store s
      ((assocFind p "name").getD PyVal.none)
      ((assocFind p "arguments").getD (PyVal.dict []))).1 = x
    cases x with
    | ok r => exact ⟨_, rfl, rfl⟩
    | error e => exact ⟨_, rfl, rfl⟩
  · exact ⟨_, rfl, rfl⟩
  · simp only [pyGetAttr]
    generalize readResourceRaw store s
      ((assocFind p "uri").getD PyVal.none) = x
    cases x with
    | ok c => exact ⟨_, rfl, rfl⟩
    | error e => exact ⟨_, rfl, rfl⟩
  · exact ⟨_, rfl, rfl⟩

/-- C4 (amended): every response carries the request's correlation id
whenever the envelope parses as a JSON object whose params field
(defaulted to the empty mapping) is itself a mapping; the id is null when
the body cannot be parsed, when the envelope is not an object (so the id
is never extracted), or — as the counterexample shows — when a
non-mapping params field makes a params-reading method fail outside the
per-method error wrapping even after id extraction succeeded. -/
theorem c4_id_preserved (store : Store) (s : ServerState)
    (d : List (String × PyVal))
    (hp : pyIsDict ((assocFind d "params").getD (.dict [])) = true) :
    (post store s (.ok (.dict d))).status = 200 ∧
    respId (post store s (.ok (.dict d)))
      = (assocFind d "id").getD PyVal.none := by
  obtain ⟨p, hp'⟩ : ∃ p, (assocFind d "params").getD (.dict [])
      = PyVal.dict p := by
    rcases hpv : (assocFind d "params").getD (.dict []) with
      _ | b | n | t | xs | p
    · rw [hpv] at hp; exact absurd hp (by simp [pyIsDict])
    · rw [hpv] at hp; exact absurd hp (by simp [pyIsDict])
    · rw [hpv] at hp; exact absurd hp (by simp [pyIsDict])
    · rw [hpv] at hp; exact absurd hp (by simp [pyIsDict])
    · rw [hpv] at hp; exact absurd hp (by simp [pyIsDict])
    · exact ⟨p, rfl⟩
  have hpi : postInner store s (.ok (.dict d))
      = dispatchMethod store s ((assocFind d "method").getD PyVal.none)
          (.dict p) ((assocFind d "id").getD PyVal.none) := by
    unfold postInner
    simp only [pyGetAttr, pyGetAttrD, hp']
  obtain ⟨bd, h1, h2⟩ := dispatch_id store s
    ((assocFind d "method").getD PyVal.none) p
    ((assocFind d "id").getD PyVal.none)
  constructor
  · show (post store s (.ok (.dict d))).status = 200
    unfold post
    rw [hpi, h1]
  · show respId (post store s (.ok (.dict d))) = _
    unfold post
    rw [hpi, h1]
    exact h2

/-- Witness for C4 (amended) at a concrete tools/list envelope with id 7
and no params field. -/
theorem c4_id_preserved_witness :
    (post sampleStore sampleState (.ok (.dict
        [("jsonrpc", .str "2.0"), ("id", .int 7),
         ("method", .str "tools/list")]))).status = 200 ∧
    respId (post sampleStore sampleState (.ok (.dict
        [("jsonrpc", .str "2.0"), ("id", .int 7),
         ("method", .str "tools/list")])))
      = (assocFind [("jsonrpc", PyVal.str "2.0"), ("id", PyVal.int 7),
          ("method", PyVal.str "tools/list")] "id").getD PyVal.none :=
  c4_id_preserved sampleStore sampleState
    [("jsonrpc", .str "2.0"), ("id", .int 7),
     ("method", .str "tools/list")] rfl

/-- C10: an HTTP tools/call envelope whose params object omits "name" or
"arguments" is still dispatched with the defaults (null name, empty
mapping).  The endpoint does not crash (it answers 200 via the normal
path, not the outer parse handler), the response carries the request's
correlation id, any error it reports has code -32603 and never -32601,
and when "name" is missing the dispatch error is in fact reported as a
-32603 envelope. -/
theorem c10_params_defaults (store : Store) (s : ServerState)
    (d p : List (String × PyVal))
    (hm : assocFind d "method" = some (.str "tools/call"))
    (hp : assocFind d "params" = some (.dict p))
    (hmiss : assocFind p "name" = Option.none ∨
             assocFind p "arguments" = Option.none) :
    (post store s (.ok (.dict d))).status = 200 ∧
    respId (post store s (.ok (.dict d)))
      = (assocFind d "id").getD PyVal.none ∧
    (respErrCode (post store s (.ok (.dict d))) = Option.none ∨
     respErrCode (post store s (.ok (.dict d))) = some (-32603)) ∧
    (assocFind p "name" = Option.none →
      respErrCode (post store s (.ok (.dict d))) = some (-32603)) := by
  rcases hr : (handle_call_tool store s
      ((assocFind p "name").getD PyVal.none)
      ((assocFind p "arguments").getD (PyVal.dict []))).1 with e | r
  · have hpost : post store s (.ok (.dict d))
        = { status := 200,
            body := errorEnvelope ((assocFind d "id").getD PyVal.none)
              (-32603) e } := by
      unfold post postInner dispatchMethod
      simp only [pyGetAttr, pyGetAttrD, hm, hp, Option.getD_some, hr]
    exact ⟨by rw [hpost], by rw [hpost]; rfl, Or.inr (by rw [hpost]; rfl),
      fun _ => by rw [hpost]; rfl⟩
  · have hpost : post store s (.ok (.dict d))
        = { status := 200,
            body := resultEnvelope ((assocFind d "id").getD PyVal.none)
              (.dict [("content",
                .list (r.map contentModelDump))]) } := by
      unfold post postInner dispatchMethod
      simp only [pyGetAttr, pyGetAttrD, hm, hp, Option.getD_some, hr]
    refine ⟨by rw [hpost], by rw [hpost]; rfl, Or.inl (by rw [hpost]; rfl),
      fun hname => ?_⟩
    exfalso
    rw [hname, Option.getD_none] at hr
    rw [show (handle_call_tool store s PyVal.none
        ((assocFind p "arguments").getD (PyVal.dict []))).1
        = Except.error ("Unknown tool: " ++ pyStr PyVal.none) from rfl] at hr
    exact Except.noConfusion hr

/-- Witness for C10: a concrete tools/call envelope with id 7 whose params
omits "name". -/
theorem c10_params_defaults_witness :
    (post sampleStore sampleState (.ok (.dict
        [("id", .int 7), ("method", .str "tools/call"),
         ("params", .dict [("arguments", .dict [])])]))).status = 200 ∧
    respId (post sampleStore sampleState (.ok (.dict
        [("id", .int 7), ("method", .str "tools/call"),
         ("params", .dict [("arguments", .dict [])])])))
      = (assocFind [("id", PyVal.int 7),
          ("method", PyVal.str "tools/call"),
          ("params", PyVal.dict [("arguments", PyVal.dict [])])]
          "id").getD PyVal.none ∧
    (respErrCode (post sampleStore sampleState (.ok (.dict
        [("id", .int 7), ("method", .str "tools/call"),
         ("params", .dict [("arguments", .dict [])])])))
        = Option.none ∨
     respErrCode (post sampleStore sampleState (.ok (.dict
        [("id", .int 7), ("method", .str "tools/call"),
         ("params", .dict [("arguments", .dict [])])])))
        = some (-32603)) ∧
    (assocFind [("arguments", PyVal.dict [])] "name" = Option.none →
      respErrCode (post sampleStore sampleState (.ok (.dict
        [("id", .int 7), ("method", .str "tools/call"),
         ("params", .dict [("arguments", .dict [])])])))
        = some (-32603)) :=
  c10_params_defaults sampleStore sampleState
    [("id", .int 7), ("method", .str "tools/call"),
     ("params", .dict [("arguments", .dict [])])]
    [("arguments", .dict [])] rfl rfl (Or.inl rfl)
